import Mathlib

/-
  Verification of the post-classification refinement and structuring layer
  of a PDF-outline extractor (source: predict.py).

  Numeric model: the Python code computes with floats; we model those values
  as exact fractions (`Frac`, an integer numerator/denominator pair with the
  denominator kept positive by construction), so that every arithmetic
  operation and comparison of the source is an executable integer computation.

  String model: Python strings are modelled as Lean `String`s restricted to
  ASCII semantics: the character classes used by the source's regular
  expressions and string predicates (whitespace, digits, letters, word
  characters) are defined on ASCII code points, mirroring what the source's
  patterns do on ASCII input.

  Each dictionary access of the source is translated faithfully: a plain
  subscript `block['field']` on an optional field becomes a `match` that
  raises (returns `Except.error ()`) when the field is absent, while
  `block.get('field', default)` becomes `Option.getD`.
-/

/-- Exact fraction: numerator and denominator.  All fractions built by the
embedding have a positive denominator; comparisons use cross multiplication. -/
structure Frac where
  num : Int
  den : Int
deriving DecidableEq

/-- Embed an integer as a fraction. -/
def Frac.ofInt (n : Int) : Frac := ⟨n, 1⟩

/-- Fraction addition. -/
def Frac.add (x y : Frac) : Frac := ⟨x.num * y.den + y.num * x.den, x.den * y.den⟩

/-- Fraction subtraction. -/
def Frac.sub (x y : Frac) : Frac := ⟨x.num * y.den - y.num * x.den, x.den * y.den⟩

/-- Fraction multiplication. -/
def Frac.mul (x y : Frac) : Frac := ⟨x.num * y.num, x.den * y.den⟩

/-- Fraction division; the sign is moved to the numerator so the denominator
stays positive when the divisor is nonzero. -/
def Frac.div (x y : Frac) : Frac :=
  if y.num < 0 then ⟨-(x.num * y.den), -(x.den * y.num)⟩ else ⟨x.num * y.den, x.den * y.num⟩

/-- Absolute value of a fraction (denominator assumed positive). -/
def Frac.fabs (x : Frac) : Frac := ⟨if x.num < 0 then -x.num else x.num, x.den⟩

/-- Strict comparison by cross multiplication (denominators assumed positive). -/
def Frac.blt (x y : Frac) : Bool := decide (x.num * y.den < y.num * x.den)

/-- Non-strict comparison by cross multiplication (denominators assumed positive). -/
def Frac.ble (x y : Frac) : Bool := decide (x.num * y.den ≤ y.num * x.den)

/-- Python `\s` on ASCII: space, tab, newline, vertical tab, form feed, carriage return. -/
def pySpace (c : Char) : Bool := c.toNat == 32 || (9 ≤ c.toNat && c.toNat ≤ 13)

/-- Python `\d` on ASCII: the characters 0 through 9. -/
def pyDigit (c : Char) : Bool := 48 ≤ c.toNat && c.toNat ≤ 57

/-- ASCII uppercase letter. -/
def pyUpperC (c : Char) : Bool := 65 ≤ c.toNat && c.toNat ≤ 90

/-- ASCII lowercase letter. -/
def pyLowerC (c : Char) : Bool := 97 ≤ c.toNat && c.toNat ≤ 122

/-- ASCII letter. -/
def pyAlpha (c : Char) : Bool := pyUpperC c || pyLowerC c

/-- ASCII alphanumeric character. -/
def pyAlnum (c : Char) : Bool := pyAlpha c || pyDigit c

/-- Lowercase an ASCII character (Python `str.lower` per character). -/
def pyToLowerC (c : Char) : Char := if pyUpperC c then Char.ofNat (c.toNat + 32) else c

/-- Python `str.strip()` on a character list. -/
def pyStripL (l : List Char) : List Char :=
  ((l.dropWhile pySpace).reverse.dropWhile pySpace).reverse

/-- Python `str.strip()`. -/
def pyStrip (s : String) : String := ⟨pyStripL s.data⟩

/-- Worker for Python `str.split()`: splits on whitespace runs, dropping empties. -/
def pyWords : List Char → List Char → List (List Char)
  | [], acc => if acc.isEmpty then [] else [acc.reverse]
  | c :: cs, acc =>
    if pySpace c then
      if acc.isEmpty then pyWords cs [] else acc.reverse :: pyWords cs []
    else pyWords cs (c :: acc)

/-- Python `str.split()` with no argument. -/
def pySplit (s : String) : List String := (pyWords s.data []).map (fun l => ⟨l⟩)

/-- Python `str.lower()` on ASCII. -/
def pyLower (s : String) : String := ⟨s.data.map pyToLowerC⟩

/-- Worker for Python `str.istitle()`: tracks whether the previous character was
cased and whether any cased character has been seen. -/
def pyIstitleAux : List Char → Bool → Bool → Bool
  | [], _, sawCased => sawCased
  | c :: cs, prevCased, sawCased =>
    if pyUpperC c then (!prevCased) && pyIstitleAux cs true true
    else if pyLowerC c then prevCased && pyIstitleAux cs true true
    else pyIstitleAux cs false sawCased

/-- Python `str.istitle()` on ASCII. -/
def pyIstitle (s : String) : Bool := pyIstitleAux s.data false false

/-- Python `str.isupper()` on ASCII: at least one letter and no lowercase letter. -/
def pyIsupper (s : String) : Bool := s.data.any pyAlpha && s.data.all (fun c => !pyLowerC c)

/-- Decimal digits to a natural number. -/
def digitsToNat (l : List Char) : Nat := l.foldl (fun a c => a * 10 + (c.toNat - 48)) 0

/-- Python `int(str)`: strips whitespace, accepts an optional sign followed by
one or more digits; `none` models the `ValueError` path. -/
def pyIntOfString (s : String) : Option Int :=
  match pyStripL s.data with
  | [] => none
  | '-' :: ds => if !ds.isEmpty && ds.all pyDigit then some (-(digitsToNat ds : Int)) else none
  | '+' :: ds => if !ds.isEmpty && ds.all pyDigit then some ((digitsToNat ds : Int)) else none
  | ds => if ds.all pyDigit then some ((digitsToNat ds : Int)) else none

/-- Case-insensitively drop a literal pattern from the front of a list,
returning the remainder when it matches. -/
def dropPatCI : List Char → List Char → Option (List Char)
  | l, [] => some l
  | [], _ :: _ => none
  | c :: cs, p :: ps => if pyToLowerC c == pyToLowerC p then dropPatCI cs ps else none

/-- Source line 27, search for three or more dots, then optional whitespace,
then digits, then optional whitespace at the end of the string. -/
def tocPat (s : String) : Bool :=
  let r := s.data.reverse
  let r1 := r.dropWhile pySpace
  let r2 := r1.dropWhile pyDigit
  decide (1 ≤ (r1.takeWhile pyDigit).length) &&
  decide (3 ≤ ((r2.dropWhile pySpace).takeWhile (fun c => c == '.')).length)

/-- Source line 30, search for whitespace, then digits, then optional
whitespace at the end of the string. -/
def trailingNumPat (s : String) : Bool :=
  let r := s.data.reverse.dropWhile pySpace
  decide (1 ≤ (r.takeWhile pyDigit).length) &&
  (match r.dropWhile pyDigit with
   | c :: _ => pySpace c
   | [] => false)

/-- Source line 32, match one or more digits, a dot, then whitespace at the
start of the string. -/
def numDotPat (s : String) : Bool :=
  decide (1 ≤ (s.data.takeWhile pyDigit).length) &&
  (match s.data.dropWhile pyDigit with
   | '.' :: c :: _ => pySpace c
   | _ => false)

/-- Source line 72, match a nonzero-leading digit string, a dot, then
whitespace at the start of the string. -/
def h1Pat (s : String) : Bool :=
  match s.data with
  | c :: cs =>
    (49 ≤ c.toNat && c.toNat ≤ 57) &&
    (match cs.dropWhile pyDigit with
     | '.' :: d :: _ => pySpace d
     | _ => false)
  | [] => false

/-- Source line 71, match two nonzero-leading digit groups each followed by a
dot, then whitespace, at the start of the string. -/
def h2Pat (s : String) : Bool :=
  match s.data with
  | c :: cs =>
    (49 ≤ c.toNat && c.toNat ≤ 57) &&
    (match cs.dropWhile pyDigit with
     | '.' :: c2 :: cs2 =>
       (49 ≤ c2.toNat && c2.toNat ≤ 57) &&
       (match cs2.dropWhile pyDigit with
        | '.' :: d :: _ => pySpace d
        | _ => false)
     | _ => false)
  | [] => false

/-- Modelled from the spec wording of the promotion rule: the pattern digits,
dot, digits, dot, whitespace with arbitrary digit strings (leading zeros
allowed).  Kept separate from `h2Pat`, which is translated from the source. -/
def claimH2Pat (s : String) : Bool :=
  decide (1 ≤ (s.data.takeWhile pyDigit).length) &&
  (match s.data.dropWhile pyDigit with
   | '.' :: r1 =>
     decide (1 ≤ (r1.takeWhile pyDigit).length) &&
     (match r1.dropWhile pyDigit with
      | '.' :: d :: _ => pySpace d
      | _ => false)
   | _ => false)

/-- First alternative of source line 49, full match of the word version (case
insensitive), an optional single whitespace, then one or more digits or dots. -/
def versionPat (s : String) : Bool :=
  match dropPatCI s.data ['v', 'e', 'r', 's', 'i', 'o', 'n'] with
  | none => false
  | some rest =>
    let rest2 := match rest with
      | c :: cs => if pySpace c then cs else c :: cs
      | [] => []
    !rest2.isEmpty && rest2.all (fun c => pyDigit c || c == '.')

/-- Second alternative of source line 49, full match of one or more characters
from the class digit, word character, whitespace or comma, followed by a
four-digit year starting with 20; the year is necessarily the final four
characters of the string. -/
def yearPat (s : String) : Bool :=
  match s.data.reverse with
  | e :: d :: z :: t :: rest =>
    pyDigit e && pyDigit d && (z == '0') && (t == '2') &&
    !rest.isEmpty &&
    rest.all (fun c => pyDigit c || (pyAlnum c || c.toNat == 95) || pySpace c || c == ',')
  | _ => false

/-- Source line 49, the full regular expression (alternation of the two parts). -/
def titleMetaPat (s : String) : Bool := versionPat s || yearPat s

/-- One character of the class digit, non-word character, or whitespace used
by the title ranking on source line 96. -/
def nonWordClassC (c : Char) : Bool := pyDigit c || !(pyAlnum c || c.toNat == 95) || pySpace c

/-- Source line 96, full match of one or more characters that are digits,
non-word characters or whitespace. -/
def digitNonwordWsPat (s : String) : Bool := !s.data.isEmpty && s.data.all nonWordClassC

/-- Source line 65, Python `text.endswith(('.', ':', ';'))`. -/
def endsPunctPat (s : String) : Bool :=
  match s.data.reverse with
  | c :: _ => c == '.' || c == ':' || c == ';'
  | [] => false

/-- Python `str.startswith('H')`. -/
def startsWithH (s : String) : Bool :=
  match s.data with
  | c :: _ => c == 'H'
  | [] => false

/-- Bounding box of a block; only the vertical coordinates are consumed. -/
structure BBox where
  y0 : Frac
  y1 : Frac
deriving DecidableEq

/-- A text block as consumed by predict.py.  Fields read with `.get` in the
source are optional here; `text`, `bbox` and `page_number` are read with plain
subscripts everywhere they are used, so they are required fields. -/
structure Block where
  text : String
  font_size : Option Frac
  is_bold : Option Bool
  bbox : BBox
  page_number : Nat
  page_height : Option Frac
  vertical_space_before : Option Frac
  final_label : Option String
deriving DecidableEq

/-- One entry of the final outline. -/
structure OutlineEntry where
  level : String
  text : String
  page : Nat
deriving DecidableEq

/-- The structured result: title plus outline. -/
structure FinalOutput where
  title : String
  outline : List OutlineEntry
deriving DecidableEq

/-- Source lines 37 and 38, the header/footer zone test: the normalized bottom
coordinate is above 0.9 or below 0.1 (page height defaults to 792). -/
def hfZone (b : Block) : Bool :=
  let y := Frac.div b.bbox.y1 (b.page_height.getD (Frac.ofInt 792))
  Frac.blt ⟨9, 10⟩ y || Frac.blt y ⟨1, 10⟩

/-- Source line 44, first two conjuncts of the table-header test: more than two
words, each title-cased or fully uppercase. -/
def tableCond (text : String) : Bool :=
  let ws := pySplit text
  decide (2 < ws.length) && ws.all (fun w => pyIstitle w || pyIsupper w)

/-- Source lines 30 to 33: more than two words, a trailing number, and not a
numbered heading. -/
def trailingNumFilter (text : String) : Bool :=
  decide (2 < (pySplit text).length) && trailingNumPat text && !(numDotPat text)

/-- Source lines 49 and 50, the title-page metadata filter condition. -/
def titleMetaFilter (b : Block) : Bool :=
  b.page_number == 1 && titleMetaPat (pyStrip b.text)

/-- Source lines 41 to 50, negative filters three and four.  The table-header
test reads `block['font_size']` with a plain subscript once its first two
conjuncts hold, so a missing font size raises there. -/
def negFilters45 (b : Block) (m : Frac) : Except Unit Bool :=
  if tableCond (pyStrip b.text) then
    match b.font_size with
    | none => .error ()
    | some fs =>
      if Frac.blt fs (Frac.mul m ⟨11, 10⟩) then .ok true else .ok (titleMetaFilter b)
  else .ok (titleMetaFilter b)

/-- Source lines 25 to 50, the chain of negative filters; `.ok true` means a
filter fired (label NONE), `.error ()` models a KeyError on a plain subscript
of a missing `font_size`. -/
def negativeFilters (b : Block) (m : Frac) : Except Unit Bool :=
  if tocPat (pyStrip b.text) then .ok true
  else if trailingNumFilter (pyStrip b.text) then .ok true
  else if hfZone b then
    match b.font_size with
    | none => .error ()
    | some fs => if Frac.ble fs m then .ok true else negFilters45 b m
  else negFilters45 b m

/-- Source lines 53 to 65, the heading score. -/
def heading_score (b : Block) (m : Frac) : Int :=
  let text := pyStrip b.text
  let font_size := b.font_size.getD (Frac.ofInt 0)
  let is_bold := b.is_bold.getD false
  let space_before := b.vertical_space_before.getD (Frac.ofInt 0)
  let relative_size := if Frac.blt (Frac.ofInt 0) m then Frac.div font_size m else Frac.ofInt 1
  (if is_bold then 2 else 0)
    + (if Frac.blt ⟨5, 4⟩ relative_size then 3
       else if Frac.blt ⟨23, 20⟩ relative_size then 2 else 0)
    + (if Frac.blt (Frac.mul font_size ⟨3, 2⟩) space_before then 2 else 0)
    + (if 150 < text.data.length then -3 else 0)
    + (if endsPunctPat text then -2 else 0)

/-- Source lines 67 to 79, the decision logic combining the score with the
first-pass label. -/
def decision_logic (b : Block) (predicted : String) (m : Frac) : String :=
  if startsWithH predicted && decide (heading_score b m < 1) then "NONE"
  else if predicted == "NONE" && decide (4 ≤ heading_score b m) then
    if h2Pat (pyStrip b.text) then "H2" else if h1Pat (pyStrip b.text) then "H1" else "H1"
  else if predicted == "TITLE" && !(b.page_number == 1) then "H1"
  else predicted

/-- Source function `apply_advanced_rules` (lines 13 to 79). -/
def apply_advanced_rules (b : Block) (predicted : String) (m : Frac) : Except Unit String :=
  if pyStrip b.text == "" then .ok "NONE"
  else
    match negativeFilters b m with
    | .error e => .error e
    | .ok true => .ok "NONE"
    | .ok false => .ok (decision_logic b predicted m)

/-- Source lines 94 to 98, the ranking key for title detection. -/
def sort_key (b : Block) : Frac :=
  if digitNonwordWsPat (pyStrip b.text) || decide ((pyStrip b.text).data.length < 4)
      || (pyLower (pyStrip b.text) == "copyright")
  then Frac.ofInt 0
  else b.font_size.getD (Frac.ofInt 0)

/-- Insert a pair into a list ranked by descending `sort_key`, after all
entries with a strictly larger or equal key (stable order for ties). -/
def insertRanked (x : Nat × Block) : List (Nat × Block) → List (Nat × Block)
  | [] => [x]
  | y :: ys =>
    if Frac.blt (sort_key x.2) (sort_key y.2) then y :: insertRanked x ys else x :: y :: ys

/-- Stable descending sort by `sort_key`, modelling Python
`list.sort(key=sort_key, reverse=True)` as a function (stable insertion sort
computes the same permutation as any stable sort). -/
def sortRanked : List (Nat × Block) → List (Nat × Block)
  | [] => []
  | x :: xs => insertRanked x (sortRanked xs)

/-- Source line 101: page-1 blocks paired with their original indices. -/
def pairsPage1 (bs : List Block) : List (Nat × Block) :=
  bs.enum.filter (fun p => p.2.page_number == 1)

/-- Source line 104: the rank-sorted page-1 blocks. -/
def rankedPage1 (bs : List Block) : List (Nat × Block) := sortRanked (pairsPage1 bs)

/-- Source lines 113 to 126, the greedy title absorption loop over the
rank-sorted tail; both font sizes are read with plain subscripts before the
test, so a missing font size raises. -/
def absorbLoop : List (Nat × Block) → Block → Except Unit (List (Nat × Block))
  | [], _ => .ok []
  | (j, nb) :: rest, lastb =>
    match nb.font_size with
    | none => .error ()
    | some nfs =>
      match lastb.font_size with
      | none => .error ()
      | some lfs =>
        if Frac.blt (Frac.fabs (Frac.sub nfs lfs)) (Frac.ofInt 1)
            && Frac.blt (Frac.sub nb.bbox.y0 lastb.bbox.y1) lfs then
          match absorbLoop rest nb with
          | .error e => .error e
          | .ok more => .ok ((j, nb) :: more)
        else .ok []

/-- Source line 138, Python `if label and label.startswith('H')` on the value
of `block.get('final_label')`. -/
def isHeadingLabeled (b : Block) : Bool :=
  match b.final_label with
  | none => false
  | some l => !(l == "") && startsWithH l

/-- Source lines 131 to 143, outline assembly in original order, skipping
title-absorbed indices. -/
def buildOutline (bs : List Block) (tIdx : List Nat) : List OutlineEntry :=
  bs.enum.filterMap (fun p =>
    if tIdx.contains p.1 then none
    else if isHeadingLabeled p.2 then
      some ⟨p.2.final_label.getD "", p.2.text, p.2.page_number⟩
    else none)

/-- The original indices consumed into the title: the top-ranked page-1 block
followed by the absorbed ones (source lines 107 to 122). -/
def title_block_indices (bs : List Block) : Except Unit (List Nat) :=
  match rankedPage1 bs with
  | [] => .ok []
  | (i0, tb) :: rest =>
    match absorbLoop rest tb with
    | .error e => .error e
    | .ok absorbed => .ok (i0 :: absorbed.map Prod.fst)

/-- Source function `structure_final_output` (lines 81 to 145). -/
def structure_final_output (bs : List Block) : Except Unit FinalOutput :=
  match rankedPage1 bs with
  | [] => .ok ⟨pyStrip "Untitled Document", buildOutline bs []⟩
  | (i0, tb) :: rest =>
    match absorbLoop rest tb with
    | .error e => .error e
    | .ok absorbed =>
      .ok ⟨pyStrip (String.intercalate " " (tb.text :: absorbed.map (fun p => p.2.text))),
           buildOutline bs (i0 :: absorbed.map Prod.fst)⟩

/-- Source line 177: font sizes above the noise threshold, with a missing
`font_size` defaulting to 0. -/
def doc_font_sizes (bs : List Block) : List Frac :=
  bs.filterMap (fun b =>
    if Frac.blt (Frac.ofInt 6) (b.font_size.getD (Frac.ofInt 0))
    then some (b.font_size.getD (Frac.ofInt 0)) else none)

/-- Insert into an ascending list (stable). -/
def insertAsc (x : Frac) : List Frac → List Frac
  | [] => [x]
  | y :: ys => if Frac.ble x y then x :: y :: ys else y :: insertAsc x ys

/-- Ascending insertion sort. -/
def sortAsc : List Frac → List Frac
  | [] => []
  | x :: xs => insertAsc x (sortAsc xs)

/-- numpy median: sort ascending, take the middle element for odd length, the
mean of the two middle elements for even length. -/
def npMedian (l : List Frac) : Frac :=
  let s := sortAsc l
  let n := s.length
  if n % 2 == 1 then s.getD (n / 2) (Frac.ofInt 0)
  else Frac.div (Frac.add (s.getD (n / 2 - 1) (Frac.ofInt 0)) (s.getD (n / 2) (Frac.ofInt 0)))
       (Frac.ofInt 2)

/-- Source line 178: the document median font with its fallback. -/
def median_font (bs : List Block) : Frac :=
  if (doc_font_sizes bs).isEmpty then Frac.ofInt 12 else npMedian (doc_font_sizes bs)

/-- The sequential heading context (`last_heading_info`, source line 180). -/
structure HeadingInfo where
  index : Int
  level : Int
  font_size : Frac
deriving DecidableEq

/-- Source lines 198 to 205: the per-block context update after the final
label is computed. -/
def update_last_heading_info (ctx : HeadingInfo) (i : Nat) (final_label : String)
    (b : Block) (m : Frac) : HeadingInfo :=
  if startsWithH final_label then
    match pyIntOfString ⟨final_label.data.drop 1⟩ with
    | some k => ⟨(i : Int), k, b.font_size.getD m⟩
    | none => ctx
  else if final_label == "TITLE" then ⟨(i : Int), 0, b.font_size.getD m⟩
  else ctx

/-- The four-block sequence of the end-to-end scenario, with the final labels
of the scenario: the two page-1 blocks first-pass TITLE, the page-2 heading
labeled H1, the body block labeled NONE. -/
def c1_blocks : List Block :=
  [⟨"Project Plan", some (Frac.ofInt 24), some true, ⟨Frac.ofInt 10, Frac.ofInt 30⟩, 1,
      none, none, some "TITLE"⟩,
   ⟨"A Report", some (Frac.ofInt 23), some true, ⟨Frac.ofInt 32, Frac.ofInt 50⟩, 1,
      none, none, some "TITLE"⟩,
   ⟨"1. Introduction", some (Frac.ofInt 16), some true, ⟨Frac.ofInt 10, Frac.ofInt 25⟩, 2,
      none, some (Frac.ofInt 30), some "H1"⟩,
   ⟨"This is body text.", some (Frac.ofInt 11), none, ⟨Frac.ofInt 30, Frac.ofInt 45⟩, 2,
      none, none, some "NONE"⟩]

/-- A page-2 block whose text is a table-of-contents line. -/
def c2_block : Block :=
  ⟨"Introduction ........ 5", some (Frac.ofInt 20), some true,
    ⟨Frac.ofInt 300, Frac.ofInt 310⟩, 2, none, none, none⟩

/-- A bold, large, mid-page page-2 block numbered with a leading zero. -/
def c3_block : Block :=
  ⟨"0.1. Overview", some (Frac.ofInt 20), some true,
    ⟨Frac.ofInt 300, Frac.ofInt 310⟩, 2, none, some (Frac.ofInt 0), none⟩

/-- A block with no `font_size` whose bottom edge is in the top-of-page zone
(750 / 792 is above 0.9). -/
def c4_block : Block :=
  ⟨"hello there", none, some true, ⟨Frac.ofInt 740, Frac.ofInt 750⟩, 2, none, none, none⟩

/-- A page-1 block containing a year that is not at the end of the text. -/
def c5_block : Block :=
  ⟨"2023 Annual Report", some (Frac.ofInt 20), some true,
    ⟨Frac.ofInt 300, Frac.ofInt 310⟩, 1, none, none, none⟩

/-- A page-1 block whose text is all digits and whose font is the largest. -/
def c6_block : Block :=
  ⟨"2023", some (Frac.ofInt 99), none, ⟨Frac.ofInt 0, Frac.ofInt 0⟩, 1, none, none, none⟩

/-- Witness block for the amended C2 statement: an ordinary page-2 block that
no negative filter excludes. -/
def c2_witness_block : Block :=
  ⟨"Chapter Overview", some (Frac.ofInt 20), some true,
    ⟨Frac.ofInt 300, Frac.ofInt 310⟩, 2, none, none, none⟩

/-- Witness block for the amended C3 statement: a properly numbered heading. -/
def c3_witness_block : Block :=
  ⟨"1.2. Results", some (Frac.ofInt 20), some true,
    ⟨Frac.ofInt 300, Frac.ofInt 310⟩, 2, none, some (Frac.ofInt 0), none⟩

/-- Witness block for the amended C4 statement: no font size, but outside both
zones that read the field with a plain subscript. -/
def c4_witness_block : Block :=
  ⟨"just some plain words", none, none, ⟨Frac.ofInt 300, Frac.ofInt 310⟩, 2, none, none, none⟩

/-- Witness block for the amended C5 statement: a version stamp on page 1. -/
def c5_witness_block : Block :=
  ⟨"Version 2.0", some (Frac.ofInt 14), none, ⟨Frac.ofInt 300, Frac.ofInt 310⟩, 1,
    none, none, none⟩

/-- Witness block for the amended C6 statement: purely non-word text. -/
def c6_witness_block : Block :=
  ⟨"$$$$$", some (Frac.ofInt 50), none, ⟨Frac.ofInt 0, Frac.ofInt 0⟩, 1, none, none, none⟩

/-- Witness blocks for C7: font sizes 10 and 20 survive the noise filter, 4
does not. -/
def c7_blocks : List Block :=
  [⟨"a", some (Frac.ofInt 10), none, ⟨Frac.ofInt 0, Frac.ofInt 0⟩, 1, none, none, none⟩,
   ⟨"b", some (Frac.ofInt 4), none, ⟨Frac.ofInt 0, Frac.ofInt 0⟩, 1, none, none, none⟩,
   ⟨"c", some (Frac.ofInt 20), none, ⟨Frac.ofInt 0, Frac.ofInt 0⟩, 2, none, none, none⟩]

/-- Witness block for C8. -/
def c8_witness_block : Block :=
  ⟨"2.1 Something", some (Frac.ofInt 13), none, ⟨Frac.ofInt 0, Frac.ofInt 0⟩, 3,
    none, none, none⟩

/-- Witness blocks for C9: a labeled title block on page 1 and a heading on
page 2. -/
def c9_blocks : List Block :=
  [⟨"My Title", some (Frac.ofInt 20), none, ⟨Frac.ofInt 10, Frac.ofInt 30⟩, 1,
      none, none, some "TITLE"⟩,
   ⟨"1. Intro", some (Frac.ofInt 14), none, ⟨Frac.ofInt 10, Frac.ofInt 20⟩, 2,
      none, none, some "H1"⟩]

/-- Witness block for C10: a page-1 block that no negative filter excludes. -/
def c10_witness_block : Block :=
  ⟨"Annual Summary", some (Frac.ofInt 20), some true,
    ⟨Frac.ofInt 300, Frac.ofInt 310⟩, 1, none, none, none⟩

/-- Helper for C4: when a font size is present, or the table-header precondition
fails, filters four and five cannot raise. -/
theorem negFilters45_isOk (b : Block) (m : Frac)
    (h : b.font_size ≠ none ∨ tableCond (pyStrip b.text) = false) :
    ∃ c, negFilters45 b m = Except.ok c := by
  unfold negFilters45
  rcases h with hfs | htc
  · obtain ⟨fs, hfs'⟩ := Option.ne_none_iff_exists'.mp hfs
    rw [hfs']
    dsimp only
    split_ifs <;> exact ⟨_, rfl⟩
  · rw [htc]
    simp only [Bool.false_eq_true, if_false]
    exact ⟨_, rfl⟩

/-- Helper for C4: the filter chain raises only through the two plain-subscript
reads of `font_size`, in the header/footer-zone test and the table-header test. -/
theorem negativeFilters_isOk (b : Block) (m : Frac)
    (h : b.font_size ≠ none ∨ (hfZone b = false ∧ tableCond (pyStrip b.text) = false)) :
    ∃ c, negativeFilters b m = Except.ok c := by
  unfold negativeFilters
  have h45 : ∃ c, negFilters45 b m = Except.ok c := by
    apply negFilters45_isOk
    rcases h with hfs | ⟨_, htc⟩
    · exact Or.inl hfs
    · exact Or.inr htc
  rcases h with hfs | ⟨hz, htc⟩
  · obtain ⟨fs, hfs'⟩ := Option.ne_none_iff_exists'.mp hfs
    rw [hfs']
    dsimp only
    split_ifs <;> first | exact ⟨_, rfl⟩ | exact h45
  · simp only [hz, Bool.false_eq_true, if_false]
    split_ifs <;> first | exact ⟨_, rfl⟩ | exact h45

/-- Helper for C6: one character is in the ranking class of source line 96
exactly when it is neither an ASCII letter nor an underscore. -/
theorem nonWordClassC_iff (c : Char) :
    nonWordClassC c = true ↔ ¬(pyAlpha c = true ∨ c.toNat = 95) := by
  simp only [nonWordClassC, pyDigit, pyAlnum, pyAlpha, pyUpperC, pyLowerC, pySpace,
    Bool.or_eq_true, Bool.and_eq_true, Bool.not_eq_true', Bool.or_eq_false_iff,
    Bool.and_eq_false_iff, decide_eq_true_eq, decide_eq_false_iff_not, beq_iff_eq,
    beq_eq_false_iff_ne, not_or]
  omega

/-- Helper for C9: a filterMap whose function is an if-some-else-none is a
filter followed by a map. -/
theorem filterMap_if_eq_filter_map {α β : Type} (p : α → Bool) (g : α → β) :
    ∀ l : List α,
      (l.filterMap fun a => if p a then some (g a) else none) = (l.filter p).map g := by
  intro l
  induction l with
  | nil => rfl
  | cons a l ih =>
    rw [List.filterMap_cons, List.filter_cons]
    cases h : p a <;> simp [h, ih]

/-- Helper for C9: the outline built by the source loop is the in-order filter
of the enumerated block list. -/
theorem buildOutline_eq (bs : List Block) (tIdx : List Nat) :
    buildOutline bs tIdx =
      (bs.enum.filter (fun p => !(tIdx.contains p.1) && isHeadingLabeled p.2)).map
        (fun p => (⟨p.2.final_label.getD "", p.2.text, p.2.page_number⟩ : OutlineEntry)) := by
  unfold buildOutline
  have hfun : (fun (p : Nat × Block) =>
        if tIdx.contains p.1 then none
        else if isHeadingLabeled p.2 then
          some (⟨p.2.final_label.getD "", p.2.text, p.2.page_number⟩ : OutlineEntry)
        else none)
      = (fun p =>
          if !(tIdx.contains p.1) && isHeadingLabeled p.2 then
            some (⟨p.2.final_label.getD "", p.2.text, p.2.page_number⟩ : OutlineEntry)
          else none) := by
    funext pr
    cases h1 : tIdx.contains pr.1 <;> rfl
  rw [hfun]
  exact filterMap_if_eq_filter_map _ _ bs.enum

/-- C1 counterexample: on the end-to-end scenario blocks the structuring step
returns the title "Project Plan", not the merged "Project Plan A Report"
claimed by the scenario, because the absorption test abs(23 - 24) < 1.0 fails. -/
theorem c1_title_merge_counterexample :
    structure_final_output c1_blocks =
      Except.ok ⟨"Project Plan", [⟨"H1", "1. Introduction", 2⟩]⟩ ∧
    "Project Plan" ≠ "Project Plan A Report" :=
  ⟨rfl, by decide⟩

/-- C1 amended: on the scenario blocks the structuring step returns title
"Project Plan" and outline [H1 "1. Introduction" page 2]; the second page-1
block is not absorbed, since the font gap abs(23 - 24) = 1.0 is not
strictly below 1.0. -/
theorem c1_title_merge_amended :
    structure_final_output c1_blocks =
      Except.ok ⟨"Project Plan", [⟨"H1", "1. Introduction", 2⟩]⟩ ∧
    Frac.blt (Frac.fabs (Frac.sub (Frac.ofInt 23) (Frac.ofInt 24))) (Frac.ofInt 1) = false :=
  ⟨rfl, rfl⟩

/-- C2 counterexample: a TITLE-labeled block on page 2 whose text is a
table-of-contents line is refined to NONE, not H1. -/
theorem c2_title_page2_counterexample :
    apply_advanced_rules c2_block "TITLE" (Frac.ofInt 11) = Except.ok "NONE" ∧
    c2_block.page_number = 2 :=
  ⟨rfl, rfl⟩

/-- C2 amended: a first-pass TITLE block with nonempty stripped text that
passes every negative filter and is not on page 1 is refined to H1. -/
theorem c2_title_page2_downgrade : ∀ (b : Block) (m : Frac),
    negativeFilters b m = Except.ok false → pyStrip b.text ≠ "" → b.page_number ≠ 1 →
    apply_advanced_rules b "TITLE" m = Except.ok "H1" := by
  intro b m hnf ht hp
  have ht' : (pyStrip b.text == "") = false := beq_eq_false_iff_ne.mpr ht
  have hp' : (b.page_number == 1) = false := beq_eq_false_iff_ne.mpr hp
  have e1 : startsWithH "TITLE" = false := rfl
  have e2 : ("TITLE" == "NONE") = false := rfl
  have e3 : ("TITLE" == "TITLE") = true := rfl
  simp only [apply_advanced_rules, ht', hnf, decision_logic, e1, e2, e3,
    Bool.false_and, Bool.true_and, Bool.false_eq_true, if_false, hp',
    Bool.not_false, if_true]

/-- C2 witness: the amended statement applied to a concrete page-2 block. -/
theorem c2_title_page2_downgrade_witness :
    apply_advanced_rules c2_witness_block "TITLE" (Frac.ofInt 11) = Except.ok "H1" :=
  c2_title_page2_downgrade c2_witness_block (Frac.ofInt 11) rfl (by decide) (by decide)

/-- C3 counterexample: a promoted block whose text "0.1. Overview" matches the
spec pattern digits-dot-digits-dot-space is assigned H1 by the code, not H2,
because the source patterns require a nonzero leading digit. -/
theorem c3_promotion_counterexample :
    apply_advanced_rules c3_block "NONE" (Frac.ofInt 11) = Except.ok "H1" ∧
    claimH2Pat (pyStrip c3_block.text) = true ∧ ("H1" : String) ≠ "H2" :=
  ⟨rfl, rfl, by decide⟩

/-- C3 amended: for a first-pass NONE block with nonempty stripped text that
passes every negative filter and has heading score at least 4, the promoted
level is H2 when the text matches the source pattern (nonzero-leading digit
groups) and H1 in every other case, including texts with a leading zero. -/
theorem c3_promotion_patterns : ∀ (b : Block) (m : Frac),
    pyStrip b.text ≠ "" → negativeFilters b m = Except.ok false →
    4 ≤ heading_score b m →
    apply_advanced_rules b "NONE" m =
      Except.ok (if h2Pat (pyStrip b.text) then "H2" else "H1") := by
  intro b m ht hnf hs
  have ht' : (pyStrip b.text == "") = false := beq_eq_false_iff_ne.mpr ht
  have hs' : decide (4 ≤ heading_score b m) = true := decide_eq_true hs
  have e1 : startsWithH "NONE" = false := rfl
  have e2 : ("NONE" == "NONE") = true := rfl
  simp only [apply_advanced_rules, ht', hnf, decision_logic, e1, e2, hs',
    Bool.false_and, Bool.true_and, Bool.and_true, Bool.false_eq_true, if_false, if_true,
    ite_self]

/-- C3 witness: the amended statement applied to the block "1.2. Results",
which is promoted to H2. -/
theorem c3_promotion_patterns_witness :
    apply_advanced_rules c3_witness_block "NONE" (Frac.ofInt 11) = Except.ok "H2" := by
  have h := c3_promotion_patterns c3_witness_block (Frac.ofInt 11) (by decide) rfl (by decide)
  rw [h]
  rfl

/-- C4 counterexample: a block with no `font_size` whose bottom edge lies in
the header/footer zone makes the refinement raise (KeyError on the plain
subscript at source line 38), contradicting the no-exception claim. -/
theorem c4_missing_font_counterexample :
    apply_advanced_rules c4_block "NONE" (Frac.ofInt 11) = Except.error () ∧
    c4_block.font_size = none :=
  ⟨rfl, rfl⟩

/-- C4 amended: missing `is_bold`, `page_height` and `vertical_space_before`
default everywhere, and a missing `font_size` defaults to 0 in the scoring
step; but the header/footer and table-header filters read `font_size` with a
plain subscript, so the refinement is exception-free exactly when the font
size is present or neither of those two reads is reached. -/
theorem c4_missing_fields_default : ∀ (b : Block) (pred : String) (m : Frac),
    (b.font_size ≠ none ∨ (hfZone b = false ∧ tableCond (pyStrip b.text) = false)) →
    ∃ r, apply_advanced_rules b pred m = Except.ok r := by
  intro b pred m h
  unfold apply_advanced_rules
  by_cases h0 : (pyStrip b.text == "") = true
  · rw [if_pos h0]
    exact ⟨"NONE", rfl⟩
  · rw [if_neg h0]
    obtain ⟨c, hc⟩ := negativeFilters_isOk b m h
    rw [hc]
    cases c
    · exact ⟨_, rfl⟩
    · exact ⟨"NONE", rfl⟩

/-- C4 witness: the amended statement applied to a block with no optional
field at all, sitting outside both raising reads. -/
theorem c4_missing_fields_default_witness :
    ∃ r, apply_advanced_rules c4_witness_block "NONE" (Frac.ofInt 11) = Except.ok r :=
  c4_missing_fields_default c4_witness_block "NONE" (Frac.ofInt 11) (Or.inr ⟨rfl, rfl⟩)

/-- C5 counterexample: the page-1 block "2023 Annual Report" contains a
four-digit year starting with 20 but is not excluded; it passes through the
refinement as TITLE because the source regular expression requires the year to
be the final four characters of the text. -/
theorem c5_metadata_counterexample :
    apply_advanced_rules c5_block "TITLE" (Frac.ofInt 11) = Except.ok "TITLE" ∧
    c5_block.page_number = 1 ∧
    (pyStrip c5_block.text).data.take 4 = ['2', '0', '2', '3'] :=
  ⟨rfl, rfl, rfl⟩

/-- C5 amended: on page 1, a block passing the earlier filters is excluded
exactly when its stripped text fully matches the source pattern: a Version
stamp, or a string of digits, word characters, whitespace and commas that ends
in a 20xx year; the filter never fires off page 1, and "2023 Annual Report"
(year not at the end) is not matched. -/
theorem c5_metadata_filter :
    (∀ (b : Block) (pred : String) (m : Frac),
        tocPat (pyStrip b.text) = false →
        trailingNumFilter (pyStrip b.text) = false →
        hfZone b = false →
        tableCond (pyStrip b.text) = false →
        b.page_number = 1 →
        titleMetaPat (pyStrip b.text) = true →
        apply_advanced_rules b pred m = Except.ok "NONE") ∧
    (∀ b : Block, b.page_number ≠ 1 → titleMetaFilter b = false) ∧
    titleMetaPat "2023 Annual Report" = false := by
  refine ⟨?_, ?_, rfl⟩
  · intro b pred m h1 h2 h3 h4 h5 h6
    have hmf : titleMetaFilter b = true := by
      simp only [titleMetaFilter, h5, h6, Bool.and_true, beq_self_eq_true]
    have hnf : negativeFilters b m = Except.ok true := by
      simp only [negativeFilters, h1, h2, h3, h4, negFilters45, hmf,
        Bool.false_eq_true, if_false]
    unfold apply_advanced_rules
    by_cases h0 : (pyStrip b.text == "") = true
    · rw [if_pos h0]
    · rw [if_neg h0, hnf]
  · intro b hb
    have hb' : (b.page_number == 1) = false := beq_eq_false_iff_ne.mpr hb
    simp only [titleMetaFilter, hb', Bool.false_and]

/-- C5 witness: the amended statement applied to a page-1 Version stamp. -/
theorem c5_metadata_filter_witness :
    apply_advanced_rules c5_witness_block "TITLE" (Frac.ofInt 11) = Except.ok "NONE" :=
  c5_metadata_filter.1 c5_witness_block "TITLE" (Frac.ofInt 11) rfl rfl rfl rfl rfl rfl

/-- C6 counterexample: the all-digit page-1 text "2023" (alphanumeric, length
4, not "copyright") receives sort key 0 instead of its font size 99, because
the ranking class includes digits. -/
theorem c6_sortkey_counterexample :
    sort_key c6_block = Frac.ofInt 0 ∧
    c6_block.font_size = some (Frac.ofInt 99) ∧
    (pyStrip c6_block.text).data.all pyAlnum = true ∧
    (pyStrip c6_block.text).data.length = 4 :=
  ⟨rfl, rfl, rfl, rfl⟩

/-- C6 amended: the key-0 class of the ranking is: stripped text whose every
character is neither a letter nor an underscore (this includes all-digit
strings such as "2023"), or text shorter than 4 characters, or text whose
lowercasing is "copyright"; every other block is keyed by its font size. -/
theorem c6_sortkey_classes :
    (∀ b : Block,
        (digitNonwordWsPat (pyStrip b.text) || decide ((pyStrip b.text).data.length < 4)
          || (pyLower (pyStrip b.text) == "copyright")) = true →
        sort_key b = Frac.ofInt 0) ∧
    (∀ b : Block,
        (digitNonwordWsPat (pyStrip b.text) || decide ((pyStrip b.text).data.length < 4)
          || (pyLower (pyStrip b.text) == "copyright")) = false →
        sort_key b = b.font_size.getD (Frac.ofInt 0)) ∧
    (∀ s : String, digitNonwordWsPat s = true ↔
        s.data ≠ [] ∧ ∀ c ∈ s.data, ¬(pyAlpha c = true ∨ c.toNat = 95)) := by
  refine ⟨?_, ?_, ?_⟩
  · intro b h
    simp only [sort_key, h, if_true]
  · intro b h
    simp only [sort_key, h, Bool.false_eq_true, if_false]
  · intro s
    simp only [digitNonwordWsPat, Bool.and_eq_true, Bool.not_eq_true',
      List.isEmpty_eq_false, List.all_eq_true, nonWordClassC_iff]

/-- C6 witness: the amended statement applied to a purely non-word text. -/
theorem c6_sortkey_classes_witness : sort_key c6_witness_block = Frac.ofInt 0 :=
  c6_sortkey_classes.1 c6_witness_block (by decide)

/-- C7: the document median font filters to sizes above 6 (a missing size
counting as 0), returns 12 on an empty filtered list and the numpy median of
the filtered list otherwise, and is a pure function of the block sequence, so
recomputation yields the same value. -/
theorem c7_median_font_spec : ∀ bs : List Block,
    (∀ x ∈ doc_font_sizes bs, Frac.blt (Frac.ofInt 6) x = true) ∧
    (doc_font_sizes bs = [] → median_font bs = Frac.ofInt 12) ∧
    (doc_font_sizes bs ≠ [] → median_font bs = npMedian (doc_font_sizes bs)) ∧
    median_font bs = median_font bs := by
  intro bs
  refine ⟨?_, ?_, ?_, rfl⟩
  · intro x hx
    simp only [doc_font_sizes, List.mem_filterMap] at hx
    obtain ⟨b, _, hb⟩ := hx
    split at hb
    · obtain rfl : b.font_size.getD (Frac.ofInt 0) = x := by
        simpa using hb
      assumption
    · exact absurd hb (by simp)
  · intro h
    simp only [median_font, h, List.isEmpty_nil, if_true]
  · intro h
    have h' : (doc_font_sizes bs).isEmpty = false := by
      simpa [List.isEmpty_eq_false] using h
    simp only [median_font, h', Bool.false_eq_true, if_false]

/-- C7 witness: on a concrete document the nonempty branch returns the numpy
median of the filtered sizes. -/
theorem c7_median_font_spec_witness :
    median_font c7_blocks = npMedian (doc_font_sizes c7_blocks) :=
  (c7_median_font_spec c7_blocks).2.2.1 (by decide)

/-- C8: the sequential context update: a final label starting with H whose
suffix parses as an integer k sets the context to the current index, level k
and the block font size (or the median); an unparseable suffix leaves the
context unchanged; TITLE sets level 0; every other label leaves the context
unchanged. -/
theorem c8_context_update : ∀ (ctx : HeadingInfo) (i : Nat) (lbl : String) (b : Block) (m : Frac),
    (∀ k : Int, startsWithH lbl = true → pyIntOfString ⟨lbl.data.drop 1⟩ = some k →
        update_last_heading_info ctx i lbl b m = ⟨(i : Int), k, b.font_size.getD m⟩) ∧
    (startsWithH lbl = true → pyIntOfString ⟨lbl.data.drop 1⟩ = none →
        update_last_heading_info ctx i lbl b m = ctx) ∧
    (lbl = "TITLE" →
        update_last_heading_info ctx i lbl b m = ⟨(i : Int), 0, b.font_size.getD m⟩) ∧
    (startsWithH lbl = false → lbl ≠ "TITLE" → update_last_heading_info ctx i lbl b m = ctx) := by
  intro ctx i lbl b m
  refine ⟨?_, ?_, ?_, ?_⟩
  · intro k h1 h2
    simp only [update_last_heading_info, h1, h2, if_true]
  · intro h1 h2
    simp only [update_last_heading_info, h1, h2, if_true]
  · intro h
    subst h
    have e1 : startsWithH "TITLE" = false := rfl
    have e2 : ("TITLE" == "TITLE") = true := rfl
    simp only [update_last_heading_info, e1, e2, Bool.false_eq_true, if_false, if_true]
  · intro h1 h2
    have h2' : (lbl == "TITLE") = false := beq_eq_false_iff_ne.mpr h2
    simp only [update_last_heading_info, h1, h2', Bool.false_eq_true, if_false]

/-- C8 witness: the update applied with final label "H2" at index 5. -/
theorem c8_context_update_witness :
    update_last_heading_info ⟨-1, 0, Frac.ofInt 11⟩ 5 "H2" c8_witness_block (Frac.ofInt 11) =
      ⟨5, 2, Frac.ofInt 13⟩ :=
  (c8_context_update ⟨-1, 0, Frac.ofInt 11⟩ 5 "H2" c8_witness_block (Frac.ofInt 11)).1 2 rfl rfl

/-- C9: whenever the structurer returns an output, its outline is exactly the
in-original-order filter of the enumerated input: the blocks whose final label
starts with H and whose original index was not consumed into the title, each
rendered as level, text and page; the input list itself is never reordered
(the ranking sort acts on a separate indexed copy, and the outline is built
from the original enumeration). -/
theorem c9_outline_original_order : ∀ (bs : List Block) (out : FinalOutput),
    structure_final_output bs = Except.ok out →
    ∃ tIdx : List Nat, title_block_indices bs = Except.ok tIdx ∧
      out.outline = (bs.enum.filter (fun p => !(tIdx.contains p.1) && isHeadingLabeled p.2)).map
        (fun p => ⟨p.2.final_label.getD "", p.2.text, p.2.page_number⟩) := by
  intro bs out h
  unfold structure_final_output at h
  unfold title_block_indices
  cases hr : rankedPage1 bs with
  | nil =>
    rw [hr] at h
    dsimp only at h ⊢
    simp only [Except.ok.injEq] at h
    refine ⟨[], rfl, ?_⟩
    rw [← h]
    exact buildOutline_eq bs []
  | cons p rest =>
    obtain ⟨i0, tb⟩ := p
    rw [hr] at h
    dsimp only at h ⊢
    cases ha : absorbLoop rest tb with
    | error e =>
      rw [ha] at h
      dsimp only at h
      exact Except.noConfusion h
    | ok absorbed =>
      rw [ha] at h
      dsimp only at h ⊢
      simp only [Except.ok.injEq] at h
      refine ⟨i0 :: absorbed.map Prod.fst, rfl, ?_⟩
      rw [← h]
      exact buildOutline_eq bs (i0 :: absorbed.map Prod.fst)

/-- C9 witness: the characterization applied to a concrete two-block document. -/
theorem c9_outline_original_order_witness :
    ∃ tIdx : List Nat, title_block_indices c9_blocks = Except.ok tIdx ∧
      (FinalOutput.mk "My Title" [⟨"H1", "1. Intro", 2⟩]).outline =
        (c9_blocks.enum.filter (fun p => !(tIdx.contains p.1) && isHeadingLabeled p.2)).map
          (fun p => ⟨p.2.final_label.getD "", p.2.text, p.2.page_number⟩) :=
  c9_outline_original_order c9_blocks ⟨"My Title", [⟨"H1", "1. Intro", 2⟩]⟩ rfl

/-- C10: the refinement returns TITLE only when the first-pass label is
already TITLE (promotion yields only H1 or H2), and a page-1 first-pass TITLE
block with nonempty stripped text that passes every negative filter passes
through as TITLE, whatever its heading score. -/
theorem c10_no_title_promotion : ∀ (b : Block) (pred : String) (m : Frac),
    (apply_advanced_rules b pred m = Except.ok "TITLE" → pred = "TITLE") ∧
    (pred = "TITLE" → b.page_number = 1 → pyStrip b.text ≠ "" →
        negativeFilters b m = Except.ok false →
        apply_advanced_rules b pred m = Except.ok "TITLE") := by
  intro b pred m
  constructor
  · intro h
    unfold apply_advanced_rules at h
    by_cases h0 : (pyStrip b.text == "") = true
    · rw [if_pos h0] at h
      simp only [Except.ok.injEq] at h
      exact absurd h (by decide)
    · rw [if_neg h0] at h
      cases hnf : negativeFilters b m with
      | error e =>
        rw [hnf] at h
        exact Except.noConfusion h
      | ok c =>
        rw [hnf] at h
        cases c with
        | true =>
          simp only [Except.ok.injEq] at h
          exact absurd h (by decide)
        | false =>
          simp only [Except.ok.injEq] at h
          unfold decision_logic at h
          split_ifs at h <;> first | exact h | exact absurd h (by decide)
  · intro hp hpage ht hnf
    subst hp
    have hpage' : (b.page_number == 1) = true := by
      simp [hpage]
    have ht' : (pyStrip b.text == "") = false := beq_eq_false_iff_ne.mpr ht
    have e1 : startsWithH "TITLE" = false := rfl
    have e2 : ("TITLE" == "NONE") = false := rfl
    have e3 : ("TITLE" == "TITLE") = true := rfl
    simp only [apply_advanced_rules, ht', hnf, decision_logic, e1, e2, e3, hpage',
      Bool.false_and, Bool.true_and, Bool.not_true, Bool.and_false,
      Bool.false_eq_true, if_false]

/-- C10 witness: both parts at a concrete page-1 TITLE block. -/
theorem c10_no_title_promotion_witness :
    apply_advanced_rules c10_witness_block "TITLE" (Frac.ofInt 11) = Except.ok "TITLE" :=
  (c10_no_title_promotion c10_witness_block "TITLE" (Frac.ofInt 11)).2 rfl rfl (by decide) rfl
